import Mathlib

/-!
Verification development for a serverless HTTP router over two storage
backends (a DynamoDB-style key-value store and an S3-style object store).

The Rust sources embedded here:
  * `src/dynamodb.rs` — adapter over the key-value store
    (`get_item_value`, `put_item`, `delete_item`, `scan_test_entities`,
    `query_test_entities_by_id`, `upsert_test_entity`).
  * `src/s3.rs` — adapter over the object store (`list_objects`,
    `presign_upload`, `presign_download`, `presign_delete`).
  * `src/http_handler.rs` — the request router `function_handler`.

Backend services are external collaborators.  The key-value store is
modelled by its documented semantics: `GetItem` returns the item stored
at the composite key or nothing; `PutItem` creates a new item or
completely replaces the existing item with the same key; `DeleteItem`
removes the item unconditionally and an absent key is not an error.
The state of one table is an association list from key to attribute map;
the `table_name` argument of the Rust functions selects which table, and
every property below concerns calls against a single table, so the state
passed around is that one table.  Transport-level failures of the AWS
calls are external and are not modelled at the adapter layer (the router
layer takes backend outcomes as parameters, so error mapping is still
covered there).
-/

namespace KV

/-- Model of `aws_sdk_dynamodb::types::AttributeValue`: only the string
variant `S` is ever constructed by this code; every other variant is
collapsed into `other`. -/
inductive AttributeValue where
  | S : String → AttributeValue
  | other : AttributeValue
deriving DecidableEq, Repr

/-- An item is an attribute map, modelled as an association list
(`HashMap<String, AttributeValue>` in the source). -/
def Item := List (String × AttributeValue)
deriving DecidableEq, Repr

/-- Lookup in a `HashMap`: first binding of the key wins. -/
def itemGet (it : Item) (k : String) : Option AttributeValue :=
  (List.find? (fun p => p.1 == k) it).map (fun p => p.2)

/-- Insertion into a `HashMap`: replaces any existing binding of the key. -/
def itemInsert (it : Item) (k : String) (v : AttributeValue) : Item :=
  (k, v) :: List.filter (fun p => !(p.1 == k)) it

/-- State of the attribute-item table: composite key `(part, index)` to
item. -/
def ItemTable := List ((String × String) × Item)
deriving DecidableEq, Repr

/-- The item stored at a key, if any (`GetItem`). -/
def tableGet (t : ItemTable) (k : String × String) : Option Item :=
  (List.find? (fun e => e.1 == k) t).map (fun e => e.2)

/-- Semantics of `PutItem`: creates a new item or completely replaces the existing
item with the same key. -/
def tablePut (t : ItemTable) (k : String × String) (it : Item) : ItemTable :=
  (k, it) :: List.filter (fun e => !(e.1 == k)) t

/-- Semantics of `DeleteItem`: unconditional removal; absent key is a no-op. -/
def tableDelete (t : ItemTable) (k : String × String) : ItemTable :=
  List.filter (fun e => !(e.1 == k)) t

/-- Embedding of `get_item_value` (src/dynamodb.rs lines 17–46): `GetItem` on key
`{part, index}`; `None` item gives `Ok(None)`; otherwise the `value`
attribute is returned when it is a string, else `None`. -/
def get_item_value (t : ItemTable) (part index : String) :
    Except Unit (Option String) :=
  match tableGet t (part, index) with
  | none => .ok none
  | some item =>
    .ok (match itemGet item "value" with
         | some (.S s) => some s
         | _ => none)

/-- Embedding of `put_item` (src/dynamodb.rs lines 47–70): builds the item
`{part, index, pk, value}` and issues `PutItem` (full replacement). -/
def put_item (t : ItemTable) (part index pk value : String) :
    Except Unit ItemTable :=
  let item : Item :=
    itemInsert (itemInsert (itemInsert (itemInsert [] "part" (.S part))
      "index" (.S index)) "pk" (.S pk)) "value" (.S value)
  .ok (tablePut t (part, index) item)

/-- Embedding of `delete_item` (src/dynamodb.rs lines 72–91): unconditional
`DeleteItem` on key `{part, index}`; never an error on an absent key. -/
def delete_item (t : ItemTable) (part index : String) :
    Except Unit ItemTable :=
  .ok (tableDelete t (part, index))

/-- Structure `TestEntity` (src/dynamodb.rs lines 6–10). -/
structure TestEntity where
  id : String
  value : Option String
deriving DecidableEq, Repr

/-- State of the entity table: single string key `id` to item. -/
def EntityTable := List (String × Item)
deriving DecidableEq, Repr

/-- The item stored at an entity id, if any. -/
def entityGet (t : EntityTable) (id : String) : Option Item :=
  (List.find? (fun e => e.1 == id) t).map (fun e => e.2)

/-- Semantics of `PutItem` on the entity table: full replacement at key `id`. -/
def entityPut (t : EntityTable) (id : String) (it : Item) : EntityTable :=
  (id, it) :: List.filter (fun e => !(e.1 == id)) t

/-- The shared extraction loop of `scan_test_entities` and
`query_test_entities_by_id` (src/dynamodb.rs lines 104–120 and 139–155):
items whose `id` attribute is not a string are silently skipped; `value`
is kept when it is a string. -/
def collectEntities (items : List Item) : List TestEntity :=
  List.filterMap (fun item =>
    match itemGet item "id" with
    | some (.S id) =>
      some { id := id,
             value := match itemGet item "value" with
                      | some (.S s) => some s
                      | _ => none }
    | _ => none) items

/-- Embedding of `scan_test_entities` (src/dynamodb.rs lines 93–123): full-table scan,
then the extraction loop. -/
def scan_test_entities (t : EntityTable) : List TestEntity :=
  collectEntities (List.map (fun e => e.2) t)

/-- Embedding of `query_test_entities_by_id` (src/dynamodb.rs lines 125–158): query
with key condition `id = :id`, then the extraction loop. -/
def query_test_entities_by_id (t : EntityTable) (id : String) :
    List TestEntity :=
  collectEntities (List.map (fun e => e.2)
    (List.filter (fun e => e.1 == id) t))

/-- Embedding of `upsert_test_entity` (src/dynamodb.rs lines 160–182): builds an item
holding `id` always and `value` only when provided, then issues `PutItem`
— which completely replaces any existing item at that key. -/
def upsert_test_entity (t : EntityTable) (id : String)
    (value : Option String) : EntityTable :=
  let item : Item :=
    match value with
    | some v => itemInsert (itemInsert [] "id" (.S id)) "value" (.S v)
    | none => itemInsert [] "id" (.S id)
  entityPut t id item

end KV

namespace S3

/-- The part of an S3 `ListObjectsV2` response consumed by
`list_objects`: `common_prefixes` is a list of `CommonPrefix` whose
`prefix` field is optional; `contents` is a list of `Object` whose `key`
field is optional. -/
structure ListObjectsV2Response where
  common_prefixes : Option (List (Option String))
  contents : Option (List (Option String))
deriving DecidableEq, Repr

/-- Embedding of `list_objects` (src/s3.rs lines 11–47), as a function of the backend
response and the requested prefix: folders collect every present
common-prefix string; files collect every present object key except a
key equal to the prefix itself. -/
def list_objects (resp : ListObjectsV2Response) (pfx : String) :
    List String × List String :=
  let folders :=
    match resp.common_prefixes with
    | some common => List.filterMap (fun p => p) common
    | none => []
  let files :=
    match resp.contents with
    | some contents =>
      List.filterMap (fun o =>
        match o with
        | some key => if key ≠ pfx then some key else none
        | none => none) contents
    | none => []
  (folders, files)

end S3

namespace Router

/-- Model of `lambda_http::Body`.  The enum is non-exhaustive in Rust;
`other` stands for any variant beyond the three the router matches. -/
inductive Body where
  | Empty : Body
  | Text : String → Body
  | Binary : List Nat → Body
  | other : Body
deriving DecidableEq, Repr

/-- The parts of a `lambda_http::Request` the router consumes: method,
URI path, decoded query pairs (in order), and body. -/
structure Request where
  method : String
  path : String
  query : List (String × String)
  body : Body
deriving DecidableEq, Repr

/-- Embedding of `query_param` (src/http_handler.rs lines 48–53): first query pair
with the given key wins. -/
def query_param (req : Request) (key : String) : Option String :=
  (List.find? (fun p => p.1 == key) req.query).map (fun p => p.2)

/-- The environment variables the router reads: `s3_bucket` (required)
and `s3_path` (optional, defaults to the empty string). -/
structure Env where
  s3_bucket : Option String
  s3_path : Option String
deriving DecidableEq, Repr

/-- Structure `DynamodbPutItemPayload` (src/http_handler.rs lines 23–28). -/
structure DynamodbPutItemPayload where
  part : String
  idx : String
  value : String
deriving DecidableEq, Repr

/-- External collaborator `serde_json`: deserialization of the POST body
from text (`from_str`) or bytes (`from_slice`); an error covers both
malformed JSON and a missing required field. -/
structure SerdeJson where
  parseStr : String → Except String DynamodbPutItemPayload
  parseSlice : List Nat → Except String DynamodbPutItemPayload

/-- Outcomes of the backend calls the router makes, supplied as an
oracle: each call either succeeds with its value or fails with an opaque
store error. -/
structure Backend where
  get_item_value : String → String → Except Unit (Option String)
  put_item : String → String → String → Except Unit Unit
  delete_item : String → String → Except Unit Unit
  list_objects : String → String → Except Unit (List String × List String)
  presign_upload : String → String → String → Except Unit String
  presign_download : String → String → Except Unit String
  presign_delete : String → String → Except Unit String

/-- Trace entry: one backend call with its arguments. -/
inductive Call where
  | getItemValue (part idx : String)
  | putItem (part idx value : String)
  | deleteItem (part idx : String)
  | listObjects (bucket pfx : String)
  | presignUpload (bucket key contentType : String)
  | presignDownload (bucket key : String)
  | presignDelete (bucket key : String)
deriving DecidableEq, Repr

/-- Insertion into a `HeaderMap`: replaces any existing value for the name. -/
def headerInsert (hs : List (String × String)) (k v : String) :
    List (String × String) :=
  (k, v) :: List.filter (fun p => !(p.1 == k)) hs

/-- Embedding of `add_cors_headers` (src/http_handler.rs lines 8–21). -/
def add_cors_headers (hs : List (String × String)) : List (String × String) :=
  headerInsert (headerInsert (headerInsert hs
    "Access-Control-Allow-Origin" "*")
    "Access-Control-Allow-Methods" "GET,POST,DELETE,OPTIONS")
    "Access-Control-Allow-Headers" "Content-Type,Authorization"

/-- The parts of an HTTP response the spec talks about. -/
structure Response where
  status : Nat
  body : Body
  headers : List (String × String)
deriving DecidableEq, Repr

/-- Embedding of `text_response` (src/http_handler.rs lines 30–35). -/
def text_response (status : Nat) (body : String) : Response :=
  { status := status, body := .Text body, headers := add_cors_headers [] }

/-- Embedding of `json_response` (src/http_handler.rs lines 37–46), taking the
already-rendered `serde_json::Value` string (`value.to_string()`). -/
def json_response (status : Nat) (rendered : String) : Response :=
  { status := status, body := .Text rendered,
    headers := add_cors_headers
      (headerInsert [] "content-type" "application/json; charset=utf-8") }

/-- JSON string escaping as performed by `serde_json` for the characters
occurring here (quote and backslash; control characters not modelled). -/
def escapeJsonChar (c : Char) : String :=
  if c = '"' then "\\\"" else if c = '\\' then "\\\\" else String.singleton c

/-- Escape a whole string for JSON output. -/
def escapeJson (s : String) : String :=
  String.join (List.map escapeJsonChar s.toList)

/-- Render a JSON string literal. -/
def renderJsonStr (s : String) : String := "\"" ++ escapeJson s ++ "\""

/-- Render a JSON array of strings. -/
def renderJsonStrList (xs : List String) : String :=
  "[" ++ String.intercalate "," (List.map renderJsonStr xs) ++ "]"

/-- Rendering of `json!(\x7b "folders": folders, "files": files \x7d)`:
`serde_json`'s default map is ordered by key, so `files` precedes
`folders`. -/
def renderFoldersFiles (folders files : List String) : String :=
  "\x7b\"files\":" ++ renderJsonStrList files ++ ",\"folders\":" ++
    renderJsonStrList folders ++ "\x7d"

/-- The router `function_handler` (src/http_handler.rs lines 55–258),
parametrised by the serde collaborator, the backend-outcome oracle and
the environment.  Returns the outcome (a shaped response, a propagated
`Err` from `?`, or a crash from `.expect`) together with the trace of
backend calls made. -/
inductive Outcome where
  | ok : Response → Outcome
  | failure : String → Outcome
  | crash : String → Outcome
deriving DecidableEq, Repr

/-- See `Outcome`. -/
def function_handler (sj : SerdeJson) (b : Backend) (env : Env)
    (req : Request) : Outcome × List Call :=
  if req.method = "OPTIONS" then
    (.ok { status := 200, body := .Empty, headers := add_cors_headers [] }, [])
  else
    match env.s3_bucket with
    | none => (.crash "s3_bucket env missing", [])
    | some bucket =>
      let base_path := env.s3_path.getD ""
      let path := req.path
      let method := req.method
      if method = "GET" ∧ path = "/helloWorld" then
        (.ok (text_response 200 "OK"), [])
      else if path = "/dynamodb/item" ∧ method = "GET" then
        let part := (query_param req "part").getD ""
        let idx := (query_param req "idx").getD ""
        if part = "" then
          (.ok (text_response 400 "part is required"), [])
        else if idx = "" then
          (.ok (text_response 400 "idx is required"), [])
        else
          match b.get_item_value part idx with
          | .ok (some value) =>
            (.ok (text_response 200 value), [.getItemValue part idx])
          | .ok none =>
            (.ok (text_response 200 "Value not found"), [.getItemValue part idx])
          | .error _ =>
            (.ok (text_response 500 "dynamodb error"), [.getItemValue part idx])
      else if path = "/dynamodb/item" ∧ method = "POST" then
        let afterParse : DynamodbPutItemPayload → Outcome × List Call :=
          fun payload =>
            if payload.part = "" then
              (.ok (text_response 400 "part is required"), [])
            else if payload.idx = "" then
              (.ok (text_response 400 "idx is required"), [])
            else
              match b.put_item payload.part payload.idx payload.value with
              | .error _ =>
                (.ok (text_response 500 "dynamodb error"),
                 [.putItem payload.part payload.idx payload.value])
              | .ok _ =>
                (.ok (text_response 200 "Success"),
                 [.putItem payload.part payload.idx payload.value])
        match req.body with
        | .Text s =>
          (match sj.parseStr s with
           | .error e => (.failure e, [])
           | .ok payload => afterParse payload)
        | .Binary bs =>
          (match sj.parseSlice bs with
           | .error e => (.failure e, [])
           | .ok payload => afterParse payload)
        | .Empty => (.ok (text_response 400 "empty body"), [])
        | .other => (.ok (text_response 400 "unsupported body type"), [])
      else if path = "/dynamodb/item" ∧ method = "DELETE" then
        let part := (query_param req "part").getD ""
        let idx := (query_param req "idx").getD ""
        if part = "" then
          (.ok (text_response 400 "part is required"), [])
        else if idx = "" then
          (.ok (text_response 400 "idx is required"), [])
        else
          match b.delete_item part idx with
          | .error _ =>
            (.ok (text_response 500 "dynamodb error"), [.deleteItem part idx])
          | .ok _ =>
            (.ok (text_response 200 "Success"), [.deleteItem part idx])
      else if path = "/api/s3/list" ∧ method = "GET" then
        let part := query_param req "part"
        let idx := query_param req "idx"
        let pfx :=
          match part, idx with
          | some part_val, some idx_val =>
            if part_val ≠ "" ∧ idx_val ≠ "" then
              base_path ++ "upload/" ++ part_val ++ "/" ++ idx_val ++ "/"
            else
              base_path ++ "upload/"
          | _, _ => base_path ++ "upload/"
        match b.list_objects bucket pfx with
        | .ok (folders, files) =>
          (.ok (json_response 200 (renderFoldersFiles folders files)),
           [.listObjects bucket pfx])
        | .error _ =>
          (.ok (text_response 500 "s3 error"), [.listObjects bucket pfx])
      else if path = "/api/s3/upload-url" ∧ method = "GET" then
        let part := query_param req "part"
        let idx := query_param req "idx"
        let filename := (query_param req "filename").getD ""
        if filename = "" then
          (.ok (text_response 400 "filename is required"), [])
        else
          let content_type :=
            (query_param req "contentType").getD "application/octet-stream"
          let key :=
            match part, idx with
            | some part_val, some idx_val =>
              if part_val ≠ "" ∧ idx_val ≠ "" then
                base_path ++ "upload/" ++ part_val ++ "/" ++ idx_val ++ "/" ++ filename
              else
                base_path ++ "upload/" ++ filename
            | _, _ => base_path ++ "upload/" ++ filename
          match b.presign_upload bucket key content_type with
          | .ok url =>
            (.ok (text_response 200 url), [.presignUpload bucket key content_type])
          | .error _ =>
            (.ok (text_response 500 "s3 error"),
             [.presignUpload bucket key content_type])
      else if path = "/api/s3/download-url" ∧ method = "GET" then
        let part := query_param req "part"
        let idx := query_param req "idx"
        let filename := (query_param req "filename").getD ""
        if filename = "" then
          (.ok (text_response 400 "filename is required"), [])
        else
          let key :=
            match part, idx with
            | some part_val, some idx_val =>
              if part_val ≠ "" ∧ idx_val ≠ "" then
                base_path ++ part_val ++ "/" ++ idx_val ++ "/" ++ filename
              else
                base_path ++ filename
            | _, _ => base_path ++ filename
          match b.presign_download bucket key with
          | .ok url =>
            (.ok (text_response 200 url), [.presignDownload bucket key])
          | .error _ =>
            (.ok (text_response 500 "s3 error"), [.presignDownload bucket key])
      else if path = "/api/s3/delete-url" ∧ method = "GET" then
        let part := query_param req "part"
        let idx := query_param req "idx"
        let filename := (query_param req "filename").getD ""
        if filename = "" then
          (.ok (text_response 400 "filename is required"), [])
        else
          let key :=
            match part, idx with
            | some part_val, some idx_val =>
              if part_val ≠ "" ∧ idx_val ≠ "" then
                base_path ++ part_val ++ "/" ++ idx_val ++ "/" ++ filename
              else
                base_path ++ filename
            | _, _ => base_path ++ filename
          match b.presign_delete bucket key with
          | .ok url =>
            (.ok (text_response 200 url), [.presignDelete bucket key])
          | .error _ =>
            (.ok (text_response 500 "s3 error"), [.presignDelete bucket key])
      else
        (.ok (text_response 404 ("not found: " ++ method ++ " " ++ path)), [])

/-- Rendering of one serialized `TestEntity` (derive order: `id` then
`value`; an absent value serializes as `null`). -/
def renderEntity (e : KV.TestEntity) : String :=
  "\x7b\"id\":" ++ renderJsonStr e.id ++ ",\"value\":" ++
    (match e.value with | some v => renderJsonStr v | none => "null") ++ "\x7d"

/-- Rendering of a serialized `Vec<TestEntity>`. -/
def renderEntities (es : List KV.TestEntity) : String :=
  "[" ++ String.intercalate "," (List.map renderEntity es) ++ "]"

/-- Modelled from the spec: the entity-variant router's
`GET /dynamodb/list` route is code of this repository missing from src/
(only its callee `scan_test_entities` is present, in src/dynamodb.rs;
the router in src/http_handler.rs is the attribute-item variant and has
no such route).  Per the spec's route table: "GET /dynamodb/list — full
scan of entity table — 200 JSON array of Entity — 500 on backend error".
The argument is the outcome of the backend scan call. -/
def entity_list_route (scanOutcome : Except Unit (List KV.TestEntity)) :
    Response :=
  match scanOutcome with
  | .ok entities => json_response 200 (renderEntities entities)
  | .error _ => text_response 500 "dynamodb error"

end Router

/-! Helper lemmas about the association-list stores, and concrete
fixtures used by the witnesses. -/

/-- Reading back the key just written returns the written item. -/
theorem tableGet_tablePut_self (t : KV.ItemTable) (k : String × String)
    (it : KV.Item) : KV.tableGet (KV.tablePut t k it) k = some it := by
  simp [KV.tableGet, KV.tablePut, List.find?]

/-- Searching for a key among the entries from which that key was
filtered out finds nothing. -/
theorem find?_filter_not_self {α β : Type} [BEq α] (t : List (α × β)) (k : α) :
    List.find? (fun e => e.1 == k) (List.filter (fun e => !(e.1 == k)) t) =
      none := by
  rw [List.find?_eq_none]
  intro x hx
  rw [List.mem_filter] at hx
  simp_all

/-- Reading back a deleted key returns nothing. -/
theorem tableGet_tableDelete_self (t : KV.ItemTable) (k : String × String) :
    KV.tableGet (KV.tableDelete t k) k = none := by
  simp [KV.tableGet, KV.tableDelete, find?_filter_not_self]

/-- Keeping only a key among the entries from which that key was
filtered out leaves nothing. -/
theorem filter_filter_not_self {α β : Type} [BEq α] (t : List (α × β)) (k : α) :
    List.filter (fun e => e.1 == k) (List.filter (fun e => !(e.1 == k)) t) =
      [] := by
  induction t with
  | nil => rfl
  | cons a l ih =>
    by_cases h : a.1 == k
    · simp [List.filter, h, ih]
    · simp only [List.filter, h]
      simp at h
      simp [h, ih]

/-- Status of an outcome, when it is a shaped response. -/
def outcomeStatus : Router.Outcome → Option Nat
  | .ok r => some r.status
  | _ => none

/-- Fixture: a serde collaborator for which every body fails to parse. -/
def sjAlwaysFails : Router.SerdeJson :=
  { parseStr := fun _ => .error "invalid JSON",
    parseSlice := fun _ => .error "invalid JSON" }

/-- Fixture: a serde collaborator parsing every body to a payload with
non-empty `part`/`idx` and an empty `value`. -/
def sjEmptyValue : Router.SerdeJson :=
  { parseStr := fun _ => .ok { part := "p", idx := "i", value := "" },
    parseSlice := fun _ => .ok { part := "p", idx := "i", value := "" } }

/-- Fixture: a backend for which every call succeeds (lookups find
nothing). -/
def bAllOk : Router.Backend :=
  { get_item_value := fun _ _ => .ok none,
    put_item := fun _ _ _ => .ok (),
    delete_item := fun _ _ => .ok (),
    list_objects := fun _ _ => .ok ([], []),
    presign_upload := fun _ _ _ => .ok "https://signed",
    presign_download := fun _ _ => .ok "https://signed",
    presign_delete := fun _ _ => .ok "https://signed" }

/-- Fixture: environment with `s3_bucket` set and a base path. -/
def envDefault : Router.Env :=
  { s3_bucket := some "bucket", s3_path := some "base/" }

/-- Fixture: environment with `s3_bucket` unset. -/
def envNoBucket : Router.Env := { s3_bucket := none, s3_path := none }

/-- C5: for every partition `p`, index `i` and value `v`, writing record
`(p, i, v)` with `put_item` (any `pk`) and then reading `(p, i)` with
`get_item_value` returns `Some(v)`. -/
theorem put_then_get_roundtrip (t : KV.ItemTable)
    (part index pk value : String) (t' : KV.ItemTable)
    (h : KV.put_item t part index pk value = .ok t') :
    KV.get_item_value t' part index = .ok (some value) := by
  simp only [KV.put_item, Except.ok.injEq] at h
  subst h
  simp [KV.get_item_value, tableGet_tablePut_self, KV.itemGet, KV.itemInsert,
    List.find?]

/-- Witness for C5 at a concrete write. -/
theorem put_then_get_roundtrip_witness :
    KV.get_item_value
      [(("p", "i"),
        [("value", .S "v"), ("pk", .S "k"), ("index", .S "i"),
         ("part", .S "p")])] "p" "i" = .ok (some "v") :=
  put_then_get_roundtrip [] "p" "i" "k" "v" _ (by rfl)

/-- C6: deleting `(p, i)` and then reading `(p, i)` yields the
absent-value outcome `Ok(None)`; deleting (also an absent key) is never
an error; and the router surfaces a backend `Ok(None)` lookup as the
`200 "Value not found"` sentinel. -/
theorem delete_then_get_absent :
    (∀ (t : KV.ItemTable) (p i : String) (t' : KV.ItemTable),
      KV.delete_item t p i = .ok t' →
      KV.get_item_value t' p i = .ok none) ∧
    (∀ (t : KV.ItemTable) (p i : String),
      ∃ t', KV.delete_item t p i = .ok t') ∧
    (∀ (sj : Router.SerdeJson) (b : Router.Backend) (env : Router.Env)
       (bucket : String) (req : Router.Request),
      env.s3_bucket = some bucket →
      req.method = "GET" → req.path = "/dynamodb/item" →
      (Router.query_param req "part").getD "" ≠ "" →
      (Router.query_param req "idx").getD "" ≠ "" →
      b.get_item_value ((Router.query_param req "part").getD "")
        ((Router.query_param req "idx").getD "") = .ok none →
      (Router.function_handler sj b env req).1 =
        .ok (Router.text_response 200 "Value not found")) := by
  refine ⟨?_, ?_, ?_⟩
  · intro t p i t' h
    simp only [KV.delete_item, Except.ok.injEq] at h
    subst h
    simp [KV.get_item_value, tableGet_tableDelete_self]
  · intro t p i
    exact ⟨_, rfl⟩
  · intro sj b env bucket req hb hm hp hpart hidx hget
    simp [Router.function_handler, hb, hm, hp, hpart, hidx, hget]

/-- Witness for C6 at a concrete table, key and request. -/
theorem delete_then_get_absent_witness :
    KV.get_item_value [] "p" "i" = .ok none ∧
    (∃ t', KV.delete_item [(("p", "i"), [("value", KV.AttributeValue.S "v")])]
      "p" "i" = .ok t') ∧
    (Router.function_handler sjAlwaysFails bAllOk envDefault
      { method := "GET", path := "/dynamodb/item",
        query := [("part", "p"), ("idx", "i")], body := .Empty }).1 =
      .ok (Router.text_response 200 "Value not found") :=
  ⟨delete_then_get_absent.1 [(("p", "i"), [("value", KV.AttributeValue.S "v")])]
      "p" "i" [] (by rfl),
   delete_then_get_absent.2.1 [(("p", "i"), [("value", KV.AttributeValue.S "v")])]
      "p" "i",
   delete_then_get_absent.2.2 sjAlwaysFails bAllOk envDefault "bucket" _
      (by rfl) (by rfl) (by rfl) (by decide) (by decide) (by rfl)⟩

/-- C2, counterexample: upserting `id="x"` with `value=None` after a
previous upsert with `value=Some "y"` does NOT leave the stored value
equal to `"y"` — the second `PutItem` replaces the whole item, so the
entity read back for `"x"` carries no value. -/
theorem upsert_value_omission_counterexample :
    KV.query_test_entities_by_id
      (KV.upsert_test_entity (KV.upsert_test_entity [] "x" (some "y"))
        "x" none) "x" = [{ id := "x", value := none }] ∧
    KV.query_test_entities_by_id
      (KV.upsert_test_entity (KV.upsert_test_entity [] "x" (some "y"))
        "x" none) "x" ≠ [{ id := "x", value := some "y" }] := by decide

/-- C2, amended: for every prior table state, upserting with
`value=None` after an upsert with `value=Some y` leaves the entity
stored for that id WITHOUT a value — value omission clears a previously
stored value, because `upsert_test_entity` issues a full-replacement
`PutItem`. -/
theorem upsert_value_omission_clears (t : KV.EntityTable) (id y : String) :
    KV.query_test_entities_by_id
      (KV.upsert_test_entity (KV.upsert_test_entity t id (some y)) id none)
      id = [{ id := id, value := none }] := by
  simp [KV.query_test_entities_by_id, KV.upsert_test_entity, KV.entityPut,
    KV.collectEntities, KV.itemGet, KV.itemInsert, List.filter_filter,
    filter_filter_not_self, List.find?]

/-- C8: for every backend listing response and prefix, the folders are
exactly the common-prefix strings present in the response, the files are
exactly the object keys present in the response except a key equal to
the prefix itself, and a listing with no results (empty prefix) yields
`(folders=[], files=[])`. -/
theorem list_objects_folders_files :
    (∀ (resp : S3.ListObjectsV2Response) (pfx f : String),
      f ∈ (S3.list_objects resp pfx).1 ↔
        some f ∈ resp.common_prefixes.getD []) ∧
    (∀ (resp : S3.ListObjectsV2Response) (pfx k : String),
      k ∈ (S3.list_objects resp pfx).2 ↔
        (some k ∈ resp.contents.getD [] ∧ k ≠ pfx)) ∧
    (∀ pfx : String,
      S3.list_objects { common_prefixes := none, contents := none } pfx =
        ([], []) ∧
      S3.list_objects { common_prefixes := some [], contents := some [] } pfx =
        ([], [])) := by
  refine ⟨?_, ?_, ?_⟩
  · intro resp pfx f
    cases h : resp.common_prefixes <;>
      simp [S3.list_objects, h, List.mem_filterMap]
  · intro resp pfx k
    cases h : resp.contents with
    | none => simp [S3.list_objects, h]
    | some contents =>
      simp only [S3.list_objects, h, Option.getD_some, List.mem_filterMap]
      constructor
      · rintro ⟨o, ho, heq⟩
        cases o with
        | none => simp at heq
        | some key =>
          by_cases hk : key ≠ pfx
          · simp [hk] at heq
            subst heq
            exact ⟨ho, hk⟩
          · simp [hk] at heq
      · rintro ⟨hmem, hne⟩
        exact ⟨some k, hmem, by simp [hne]⟩
  · intro pfx
    constructor <;> rfl

/-- C7: for every GET or DELETE request to `/dynamodb/item` in which the
query parameter `part` or `idx` is missing or empty, the router returns
a 400 text response and the backend-call trace is empty. -/
theorem strict_validation_before_backend (sj : Router.SerdeJson)
    (b : Router.Backend) (env : Router.Env) (bucket : String)
    (req : Router.Request)
    (hb : env.s3_bucket = some bucket)
    (hm : req.method = "GET" ∨ req.method = "DELETE")
    (hp : req.path = "/dynamodb/item")
    (hmiss : (Router.query_param req "part").getD "" = "" ∨
      (Router.query_param req "idx").getD "" = "") :
    (∃ msg, (Router.function_handler sj b env req).1 =
      .ok (Router.text_response 400 msg)) ∧
      (Router.function_handler sj b env req).2 = [] := by
  by_cases hpart : (Router.query_param req "part").getD "" = ""
  · rcases hm with hm | hm <;>
      exact ⟨⟨"part is required",
        by simp [Router.function_handler, hb, hm, hp, hpart]⟩,
        by simp [Router.function_handler, hb, hm, hp, hpart]⟩
  · have hidx : (Router.query_param req "idx").getD "" = "" := by tauto
    rcases hm with hm | hm <;>
      exact ⟨⟨"idx is required",
        by simp [Router.function_handler, hb, hm, hp, hpart, hidx]⟩,
        by simp [Router.function_handler, hb, hm, hp, hpart, hidx]⟩

/-- Witness for C7 at a concrete request with `part` missing. -/
theorem strict_validation_before_backend_witness :
    (∃ msg, (Router.function_handler sjAlwaysFails bAllOk envDefault
      { method := "GET", path := "/dynamodb/item",
        query := [("idx", "x")], body := .Empty }).1 =
      .ok (Router.text_response 400 msg)) ∧
      (Router.function_handler sjAlwaysFails bAllOk envDefault
        { method := "GET", path := "/dynamodb/item",
          query := [("idx", "x")], body := .Empty }).2 = [] :=
  strict_validation_before_backend sjAlwaysFails bAllOk envDefault "bucket" _
    (by rfl) (Or.inl (by rfl)) (by rfl) (Or.inl (by decide))

/-- C9: an OPTIONS request, with any environment (the `s3_bucket`
variable may be unset), returns 200 with an empty body and the three
CORS headers and makes no backend call; every non-OPTIONS request with
`s3_bucket` unset crashes with the `.expect` panic before any route
matching, because the variable is read unconditionally. -/
theorem options_cors_and_env_read_before_routing :
    (∀ (sj : Router.SerdeJson) (b : Router.Backend) (env : Router.Env)
       (req : Router.Request),
      req.method = "OPTIONS" →
      Router.function_handler sj b env req =
        (.ok { status := 200, body := .Empty,
               headers :=
                 [("Access-Control-Allow-Headers", "Content-Type,Authorization"),
                  ("Access-Control-Allow-Methods", "GET,POST,DELETE,OPTIONS"),
                  ("Access-Control-Allow-Origin", "*")] }, [])) ∧
    (∀ (sj : Router.SerdeJson) (b : Router.Backend) (env : Router.Env)
       (req : Router.Request),
      env.s3_bucket = none → req.method ≠ "OPTIONS" →
      Router.function_handler sj b env req =
        (.crash "s3_bucket env missing", [])) := by
  constructor
  · intro sj b env req hm
    simp [Router.function_handler, hm, Router.add_cors_headers,
      Router.headerInsert]
  · intro sj b env req hb hm
    simp [Router.function_handler, hb, hm]

/-- Witness for C9: OPTIONS with `s3_bucket` unset, and
`GET /helloWorld` with `s3_bucket` unset. -/
theorem options_cors_and_env_read_before_routing_witness :
    Router.function_handler sjAlwaysFails bAllOk envNoBucket
      { method := "OPTIONS", path := "/anything", query := [],
        body := .Empty } =
      (.ok { status := 200, body := .Empty,
             headers :=
               [("Access-Control-Allow-Headers", "Content-Type,Authorization"),
                ("Access-Control-Allow-Methods", "GET,POST,DELETE,OPTIONS"),
                ("Access-Control-Allow-Origin", "*")] }, []) ∧
    Router.function_handler sjAlwaysFails bAllOk envNoBucket
      { method := "GET", path := "/helloWorld", query := [],
        body := .Empty } = (.crash "s3_bucket env missing", []) :=
  ⟨options_cors_and_env_read_before_routing.1 sjAlwaysFails bAllOk envNoBucket _
      (by rfl),
   options_cors_and_env_read_before_routing.2 sjAlwaysFails bAllOk envNoBucket _
      (by rfl) (by decide)⟩

/-- C10: a POST to `/dynamodb/item` whose body parses to a payload with
non-empty `part` and `idx` and an empty-string `value` is accepted: on
backend success the router returns `200 "Success"` and the backend write
carries the empty string — `value` is never checked for emptiness. -/
theorem post_item_empty_value_accepted (sj : Router.SerdeJson)
    (b : Router.Backend) (env : Router.Env) (bucket : String)
    (req : Router.Request) (s : String)
    (payload : Router.DynamodbPutItemPayload)
    (hb : env.s3_bucket = some bucket)
    (hm : req.method = "POST") (hp : req.path = "/dynamodb/item")
    (hbody : req.body = .Text s)
    (hparse : sj.parseStr s = .ok payload)
    (hpart : payload.part ≠ "") (hidx : payload.idx ≠ "")
    (hval : payload.value = "")
    (hput : b.put_item payload.part payload.idx "" = .ok ()) :
    Router.function_handler sj b env req =
      (.ok (Router.text_response 200 "Success"),
       [.putItem payload.part payload.idx ""]) := by
  simp [Router.function_handler, hb, hm, hp, hbody, hparse, hpart, hidx,
    hval, hput]

/-- Witness for C10 at a concrete request whose body parses to
`part="p", idx="i", value=""`. -/
theorem post_item_empty_value_accepted_witness :
    Router.function_handler sjEmptyValue bAllOk envDefault
      { method := "POST", path := "/dynamodb/item", query := [],
        body := .Text "\x7b\"part\":\"p\",\"idx\":\"i\",\"value\":\"\"\x7d" } =
      (.ok (Router.text_response 200 "Success"), [.putItem "p" "i" ""]) :=
  post_item_empty_value_accepted sjEmptyValue bAllOk envDefault "bucket" _
    "\x7b\"part\":\"p\",\"idx\":\"i\",\"value\":\"\"\x7d"
    { part := "p", idx := "i", value := "" }
    (by rfl) (by rfl) (by rfl) (by rfl) (by rfl) (by decide) (by decide)
    (by rfl) (by rfl)

/-- C3, counterexample: a POST to `/dynamodb/item` whose non-empty text
body fails JSON deserialization does NOT produce a 400 response — the
`?` on `serde_json::from_str` propagates the error out of
`function_handler`, so the invocation fails with `Err`. -/
theorem post_item_unparsable_json_counterexample :
    (Router.function_handler sjAlwaysFails bAllOk envDefault
      { method := "POST", path := "/dynamodb/item", query := [],
        body := .Text "\x7bnot json" }).1 = .failure "invalid JSON" ∧
    outcomeStatus (Router.function_handler sjAlwaysFails bAllOk envDefault
      { method := "POST", path := "/dynamodb/item", query := [],
        body := .Text "\x7bnot json" }).1 ≠ some 400 := by decide

/-- C3, amended: for a POST to `/dynamodb/item`, an empty body and an
unsupported body type yield 400 responses, but a non-empty text or
binary body that fails JSON deserialization makes the router propagate
the deserialization error (`Err` via `?`) instead of returning 400; in
every one of these cases no backend call is made. -/
theorem post_item_body_error_handling :
    (∀ (sj : Router.SerdeJson) (b : Router.Backend) (env : Router.Env)
       (bucket : String) (req : Router.Request) (s e : String),
      env.s3_bucket = some bucket →
      req.method = "POST" → req.path = "/dynamodb/item" →
      req.body = .Text s → sj.parseStr s = .error e →
      Router.function_handler sj b env req = (.failure e, [])) ∧
    (∀ (sj : Router.SerdeJson) (b : Router.Backend) (env : Router.Env)
       (bucket : String) (req : Router.Request) (bs : List Nat) (e : String),
      env.s3_bucket = some bucket →
      req.method = "POST" → req.path = "/dynamodb/item" →
      req.body = .Binary bs → sj.parseSlice bs = .error e →
      Router.function_handler sj b env req = (.failure e, [])) ∧
    (∀ (sj : Router.SerdeJson) (b : Router.Backend) (env : Router.Env)
       (bucket : String) (req : Router.Request),
      env.s3_bucket = some bucket →
      req.method = "POST" → req.path = "/dynamodb/item" →
      req.body = .Empty →
      Router.function_handler sj b env req =
        (.ok (Router.text_response 400 "empty body"), [])) ∧
    (∀ (sj : Router.SerdeJson) (b : Router.Backend) (env : Router.Env)
       (bucket : String) (req : Router.Request),
      env.s3_bucket = some bucket →
      req.method = "POST" → req.path = "/dynamodb/item" →
      req.body = .other →
      Router.function_handler sj b env req =
        (.ok (Router.text_response 400 "unsupported body type"), [])) := by
  refine ⟨?_, ?_, ?_, ?_⟩ <;> intro sj b env bucket req
  · intro s e hb hm hp hbody hparse
    simp [Router.function_handler, hb, hm, hp, hbody, hparse]
  · intro bs e hb hm hp hbody hparse
    simp [Router.function_handler, hb, hm, hp, hbody, hparse]
  · intro hb hm hp hbody
    simp [Router.function_handler, hb, hm, hp, hbody]
  · intro hb hm hp hbody
    simp [Router.function_handler, hb, hm, hp, hbody]

/-- Witness for the amended C3 at concrete requests: a failing text
body, a failing binary body, an empty body and an unsupported body. -/
theorem post_item_body_error_handling_witness :
    Router.function_handler sjAlwaysFails bAllOk envDefault
      { method := "POST", path := "/dynamodb/item", query := [],
        body := .Text "\x7bnot json" } = (.failure "invalid JSON", []) ∧
    Router.function_handler sjAlwaysFails bAllOk envDefault
      { method := "POST", path := "/dynamodb/item", query := [],
        body := .Binary [0] } = (.failure "invalid JSON", []) ∧
    Router.function_handler sjAlwaysFails bAllOk envDefault
      { method := "POST", path := "/dynamodb/item", query := [],
        body := .Empty } =
      (.ok (Router.text_response 400 "empty body"), []) ∧
    Router.function_handler sjAlwaysFails bAllOk envDefault
      { method := "POST", path := "/dynamodb/item", query := [],
        body := .other } =
      (.ok (Router.text_response 400 "unsupported body type"), []) :=
  ⟨post_item_body_error_handling.1 sjAlwaysFails bAllOk envDefault "bucket" _
      "\x7bnot json" "invalid JSON" (by rfl) (by rfl) (by rfl) (by rfl) (by rfl),
   post_item_body_error_handling.2.1 sjAlwaysFails bAllOk envDefault "bucket" _
      [0] "invalid JSON" (by rfl) (by rfl) (by rfl) (by rfl) (by rfl),
   post_item_body_error_handling.2.2.1 sjAlwaysFails bAllOk envDefault "bucket"
      _ (by rfl) (by rfl) (by rfl) (by rfl),
   post_item_body_error_handling.2.2.2 sjAlwaysFails bAllOk envDefault "bucket"
      _ (by rfl) (by rfl) (by rfl) (by rfl)⟩

/-- C4: the entity-variant `GET /dynamodb/list` route (modelled from the
spec, see `Router.entity_list_route`) performs the full scan embodied by
`scan_test_entities` and, on backend success, returns status 200 with
the JSON array of the scanned entities as body; on backend error it
returns status 500. -/
theorem dynamodb_list_route_scan (t : KV.EntityTable) :
    (Router.entity_list_route (.ok (KV.scan_test_entities t))).status = 200 ∧
    (Router.entity_list_route (.ok (KV.scan_test_entities t))).body =
      .Text (Router.renderEntities (KV.scan_test_entities t)) ∧
    (Router.entity_list_route (.error ())).status = 500 :=
  ⟨rfl, rfl, rfl⟩

/-- C1: object-key construction per route.  For `/api/s3/upload-url` the
signed key is `basePath ++ "upload/" ++ part ++ "/" ++ idx ++ "/" ++
filename` when both `part` and `idx` are supplied and non-empty, and
`basePath ++ "upload/" ++ filename` otherwise; the listing prefix of
`/api/s3/list` follows the same rule with a trailing `/` in place of the
filename; `/api/s3/download-url` and `/api/s3/delete-url` use the same
rule without the `"upload/"` segment.  Each conjunct pins the exact
argument of the single backend call in the trace. -/
theorem s3_key_construction_per_route :
    (∀ (sj : Router.SerdeJson) (b : Router.Backend) (env : Router.Env)
       (bucket : String) (req : Router.Request) (fn pv iv : String),
      env.s3_bucket = some bucket →
      req.method = "GET" → req.path = "/api/s3/upload-url" →
      Router.query_param req "filename" = some fn → fn ≠ "" →
      Router.query_param req "part" = some pv →
      Router.query_param req "idx" = some iv → pv ≠ "" → iv ≠ "" →
      (Router.function_handler sj b env req).2 =
        [.presignUpload bucket
          (env.s3_path.getD "" ++ "upload/" ++ pv ++ "/" ++ iv ++ "/" ++ fn)
          ((Router.query_param req "contentType").getD
            "application/octet-stream")]) ∧
    (∀ (sj : Router.SerdeJson) (b : Router.Backend) (env : Router.Env)
       (bucket : String) (req : Router.Request) (fn : String),
      env.s3_bucket = some bucket →
      req.method = "GET" → req.path = "/api/s3/upload-url" →
      Router.query_param req "filename" = some fn → fn ≠ "" →
      (Router.query_param req "part" = none ∨
        Router.query_param req "idx" = none ∨
        Router.query_param req "part" = some "" ∨
        Router.query_param req "idx" = some "") →
      (Router.function_handler sj b env req).2 =
        [.presignUpload bucket (env.s3_path.getD "" ++ "upload/" ++ fn)
          ((Router.query_param req "contentType").getD
            "application/octet-stream")]) ∧
    (∀ (sj : Router.SerdeJson) (b : Router.Backend) (env : Router.Env)
       (bucket : String) (req : Router.Request) (pv iv : String),
      env.s3_bucket = some bucket →
      req.method = "GET" → req.path = "/api/s3/list" →
      Router.query_param req "part" = some pv →
      Router.query_param req "idx" = some iv → pv ≠ "" → iv ≠ "" →
      (Router.function_handler sj b env req).2 =
        [.listObjects bucket
          (env.s3_path.getD "" ++ "upload/" ++ pv ++ "/" ++ iv ++ "/")]) ∧
    (∀ (sj : Router.SerdeJson) (b : Router.Backend) (env : Router.Env)
       (bucket : String) (req : Router.Request),
      env.s3_bucket = some bucket →
      req.method = "GET" → req.path = "/api/s3/list" →
      (Router.query_param req "part" = none ∨
        Router.query_param req "idx" = none ∨
        Router.query_param req "part" = some "" ∨
        Router.query_param req "idx" = some "") →
      (Router.function_handler sj b env req).2 =
        [.listObjects bucket (env.s3_path.getD "" ++ "upload/")]) ∧
    (∀ (sj : Router.SerdeJson) (b : Router.Backend) (env : Router.Env)
       (bucket : String) (req : Router.Request) (fn pv iv : String),
      env.s3_bucket = some bucket →
      req.method = "GET" → req.path = "/api/s3/download-url" →
      Router.query_param req "filename" = some fn → fn ≠ "" →
      Router.query_param req "part" = some pv →
      Router.query_param req "idx" = some iv → pv ≠ "" → iv ≠ "" →
      (Router.function_handler sj b env req).2 =
        [.presignDownload bucket
          (env.s3_path.getD "" ++ pv ++ "/" ++ iv ++ "/" ++ fn)]) ∧
    (∀ (sj : Router.SerdeJson) (b : Router.Backend) (env : Router.Env)
       (bucket : String) (req : Router.Request) (fn : String),
      env.s3_bucket = some bucket →
      req.method = "GET" → req.path = "/api/s3/download-url" →
      Router.query_param req "filename" = some fn → fn ≠ "" →
      (Router.query_param req "part" = none ∨
        Router.query_param req "idx" = none ∨
        Router.query_param req "part" = some "" ∨
        Router.query_param req "idx" = some "") →
      (Router.function_handler sj b env req).2 =
        [.presignDownload bucket (env.s3_path.getD "" ++ fn)]) ∧
    (∀ (sj : Router.SerdeJson) (b : Router.Backend) (env : Router.Env)
       (bucket : String) (req : Router.Request) (fn pv iv : String),
      env.s3_bucket = some bucket →
      req.method = "GET" → req.path = "/api/s3/delete-url" →
      Router.query_param req "filename" = some fn → fn ≠ "" →
      Router.query_param req "part" = some pv →
      Router.query_param req "idx" = some iv → pv ≠ "" → iv ≠ "" →
      (Router.function_handler sj b env req).2 =
        [.presignDelete bucket
          (env.s3_path.getD "" ++ pv ++ "/" ++ iv ++ "/" ++ fn)]) ∧
    (∀ (sj : Router.SerdeJson) (b : Router.Backend) (env : Router.Env)
       (bucket : String) (req : Router.Request) (fn : String),
      env.s3_bucket = some bucket →
      req.method = "GET" → req.path = "/api/s3/delete-url" →
      Router.query_param req "filename" = some fn → fn ≠ "" →
      (Router.query_param req "part" = none ∨
        Router.query_param req "idx" = none ∨
        Router.query_param req "part" = some "" ∨
        Router.query_param req "idx" = some "") →
      (Router.function_handler sj b env req).2 =
        [.presignDelete bucket (env.s3_path.getD "" ++ fn)]) := by
  refine ⟨?_, ?_, ?_, ?_, ?_, ?_, ?_, ?_⟩
  · intro sj b env bucket req fn pv iv hb hm hp hf hfne hpart hidx hpne hine
    simp only [Router.function_handler, hb, hm, hp, hf, hpart, hidx]
    simp [hfne, hpne, hine]
    cases b.presign_upload bucket
        (env.s3_path.getD "" ++ "upload/" ++ pv ++ "/" ++ iv ++ "/" ++ fn)
        ((Router.query_param req "contentType").getD
          "application/octet-stream") <;> simp
  · intro sj b env bucket req fn hb hm hp hf hfne hcase
    simp only [Router.function_handler, hb, hm, hp, hf]
    have key_eq :
        (match Router.query_param req "part", Router.query_param req "idx" with
          | some part_val, some idx_val =>
            if part_val ≠ "" ∧ idx_val ≠ "" then
              env.s3_path.getD "" ++ "upload/" ++ part_val ++ "/" ++ idx_val
                ++ "/" ++ fn
            else env.s3_path.getD "" ++ "upload/" ++ fn
          | _, _ => env.s3_path.getD "" ++ "upload/" ++ fn) =
        env.s3_path.getD "" ++ "upload/" ++ fn := by
      rcases hcase with h | h | h | h <;> rw [h] <;>
        cases hq : Router.query_param req "part" <;>
          cases hq2 : Router.query_param req "idx" <;> simp_all
    simp [hfne, key_eq]
    cases b.presign_upload bucket (env.s3_path.getD "" ++ "upload/" ++ fn)
        ((Router.query_param req "contentType").getD
          "application/octet-stream") <;> simp
  · intro sj b env bucket req pv iv hb hm hp hpart hidx hpne hine
    simp only [Router.function_handler, hb, hm, hp, hpart, hidx]
    simp [hpne, hine]
    cases b.list_objects bucket
        (env.s3_path.getD "" ++ "upload/" ++ pv ++ "/" ++ iv ++ "/") with
    | ok v => obtain ⟨fo, fi⟩ := v; simp
    | error e => simp
  · intro sj b env bucket req hb hm hp hcase
    simp only [Router.function_handler, hb, hm, hp]
    have pfx_eq :
        (match Router.query_param req "part", Router.query_param req "idx" with
          | some part_val, some idx_val =>
            if part_val ≠ "" ∧ idx_val ≠ "" then
              env.s3_path.getD "" ++ "upload/" ++ part_val ++ "/" ++ idx_val
                ++ "/"
            else env.s3_path.getD "" ++ "upload/"
          | _, _ => env.s3_path.getD "" ++ "upload/") =
        env.s3_path.getD "" ++ "upload/" := by
      rcases hcase with h | h | h | h <;> rw [h] <;>
        cases hq : Router.query_param req "part" <;>
          cases hq2 : Router.query_param req "idx" <;> simp_all
    simp [pfx_eq]
    cases b.list_objects bucket (env.s3_path.getD "" ++ "upload/") with
    | ok v => obtain ⟨fo, fi⟩ := v; simp
    | error e => simp
  · intro sj b env bucket req fn pv iv hb hm hp hf hfne hpart hidx hpne hine
    simp only [Router.function_handler, hb, hm, hp, hf, hpart, hidx]
    simp [hfne, hpne, hine]
    cases b.presign_download bucket
        (env.s3_path.getD "" ++ pv ++ "/" ++ iv ++ "/" ++ fn) <;> simp
  · intro sj b env bucket req fn hb hm hp hf hfne hcase
    simp only [Router.function_handler, hb, hm, hp, hf]
    have key_eq :
        (match Router.query_param req "part", Router.query_param req "idx" with
          | some part_val, some idx_val =>
            if part_val ≠ "" ∧ idx_val ≠ "" then
              env.s3_path.getD "" ++ part_val ++ "/" ++ idx_val ++ "/" ++ fn
            else env.s3_path.getD "" ++ fn
          | _, _ => env.s3_path.getD "" ++ fn) =
        env.s3_path.getD "" ++ fn := by
      rcases hcase with h | h | h | h <;> rw [h] <;>
        cases hq : Router.query_param req "part" <;>
          cases hq2 : Router.query_param req "idx" <;> simp_all
    simp [hfne, key_eq]
    cases b.presign_download bucket (env.s3_path.getD "" ++ fn) <;> simp
  · intro sj b env bucket req fn pv iv hb hm hp hf hfne hpart hidx hpne hine
    simp only [Router.function_handler, hb, hm, hp, hf, hpart, hidx]
    simp [hfne, hpne, hine]
    cases b.presign_delete bucket
        (env.s3_path.getD "" ++ pv ++ "/" ++ iv ++ "/" ++ fn) <;> simp
  · intro sj b env bucket req fn hb hm hp hf hfne hcase
    simp only [Router.function_handler, hb, hm, hp, hf]
    have key_eq :
        (match Router.query_param req "part", Router.query_param req "idx" with
          | some part_val, some idx_val =>
            if part_val ≠ "" ∧ idx_val ≠ "" then
              env.s3_path.getD "" ++ part_val ++ "/" ++ idx_val ++ "/" ++ fn
            else env.s3_path.getD "" ++ fn
          | _, _ => env.s3_path.getD "" ++ fn) =
        env.s3_path.getD "" ++ fn := by
      rcases hcase with h | h | h | h <;> rw [h] <;>
        cases hq : Router.query_param req "part" <;>
          cases hq2 : Router.query_param req "idx" <;> simp_all
    simp [hfne, key_eq]
    cases b.presign_delete bucket (env.s3_path.getD "" ++ fn) <;> simp

/-- Witness for C1: all eight cases at concrete requests against
`envDefault` (base path `"base/"`). -/
theorem s3_key_construction_per_route_witness :
    (Router.function_handler sjAlwaysFails bAllOk envDefault
      { method := "GET", path := "/api/s3/upload-url",
        query := [("part", "a"), ("idx", "b"), ("filename", "f.txt")],
        body := .Empty }).2 =
      [.presignUpload "bucket" "base/upload/a/b/f.txt"
        "application/octet-stream"] ∧
    (Router.function_handler sjAlwaysFails bAllOk envDefault
      { method := "GET", path := "/api/s3/upload-url",
        query := [("filename", "f.txt")], body := .Empty }).2 =
      [.presignUpload "bucket" "base/upload/f.txt"
        "application/octet-stream"] ∧
    (Router.function_handler sjAlwaysFails bAllOk envDefault
      { method := "GET", path := "/api/s3/list",
        query := [("part", "a"), ("idx", "b")], body := .Empty }).2 =
      [.listObjects "bucket" "base/upload/a/b/"] ∧
    (Router.function_handler sjAlwaysFails bAllOk envDefault
      { method := "GET", path := "/api/s3/list",
        query := [("part", ""), ("idx", "b")], body := .Empty }).2 =
      [.listObjects "bucket" "base/upload/"] ∧
    (Router.function_handler sjAlwaysFails bAllOk envDefault
      { method := "GET", path := "/api/s3/download-url",
        query := [("part", "a"), ("idx", "b"), ("filename", "f.txt")],
        body := .Empty }).2 =
      [.presignDownload "bucket" "base/a/b/f.txt"] ∧
    (Router.function_handler sjAlwaysFails bAllOk envDefault
      { method := "GET", path := "/api/s3/download-url",
        query := [("filename", "f.txt")], body := .Empty }).2 =
      [.presignDownload "bucket" "base/f.txt"] ∧
    (Router.function_handler sjAlwaysFails bAllOk envDefault
      { method := "GET", path := "/api/s3/delete-url",
        query := [("part", "a"), ("idx", "b"), ("filename", "f.txt")],
        body := .Empty }).2 =
      [.presignDelete "bucket" "base/a/b/f.txt"] ∧
    (Router.function_handler sjAlwaysFails bAllOk envDefault
      { method := "GET", path := "/api/s3/delete-url",
        query := [("filename", "f.txt")], body := .Empty }).2 =
      [.presignDelete "bucket" "base/f.txt"] :=
  ⟨s3_key_construction_per_route.1 sjAlwaysFails bAllOk envDefault "bucket" _
      "f.txt" "a" "b" (by rfl) (by rfl) (by rfl) (by rfl) (by decide)
      (by rfl) (by rfl) (by decide) (by decide),
   s3_key_construction_per_route.2.1 sjAlwaysFails bAllOk envDefault "bucket" _
      "f.txt" (by rfl) (by rfl) (by rfl) (by rfl) (by decide)
      (Or.inl (by rfl)),
   s3_key_construction_per_route.2.2.1 sjAlwaysFails bAllOk envDefault
      "bucket" _ "a" "b" (by rfl) (by rfl) (by rfl) (by rfl) (by rfl)
      (by decide) (by decide),
   s3_key_construction_per_route.2.2.2.1 sjAlwaysFails bAllOk envDefault
      "bucket" _ (by rfl) (by rfl) (by rfl)
      (Or.inr (Or.inr (Or.inl (by rfl)))),
   s3_key_construction_per_route.2.2.2.2.1 sjAlwaysFails bAllOk envDefault
      "bucket" _ "f.txt" "a" "b" (by rfl) (by rfl) (by rfl) (by rfl)
      (by decide) (by rfl) (by rfl) (by decide) (by decide),
   s3_key_construction_per_route.2.2.2.2.2.1 sjAlwaysFails bAllOk envDefault
      "bucket" _ "f.txt" (by rfl) (by rfl) (by rfl) (by rfl) (by decide)
      (Or.inl (by rfl)),
   s3_key_construction_per_route.2.2.2.2.2.2.1 sjAlwaysFails bAllOk envDefault
      "bucket" _ "f.txt" "a" "b" (by rfl) (by rfl) (by rfl) (by rfl)
      (by decide) (by rfl) (by rfl) (by decide) (by decide),
   s3_key_construction_per_route.2.2.2.2.2.2.2 sjAlwaysFails bAllOk envDefault
      "bucket" _ "f.txt" (by rfl) (by rfl) (by rfl) (by rfl) (by decide)
      (Or.inl (by rfl))⟩
